import Mathlib

/-!
# MSTimer: a polling countdown timer

Shallow embedding of `class MSTimer` (`MSTimer.h`, `MSTimer.cpp`).

* The two fields `startTime` and `duration` are `unsigned long`; they are
  modelled as natural numbers, and the width `w` of `unsigned long` is a
  parameter (32 on the Arduino boards the class was written for).
  Arithmetic on them is reduced modulo `2 ^ w` where the source computes it.
* `millis()` belongs to the host (`Arduino.h`); every method that reads the
  clock takes the value returned by that read as its last argument.
* Methods are state passing: a `void` method maps the object to the object
  after the call, and `isExpired` gives its `int` result together with the
  object after the call.
-/

/-- Fields of `class MSTimer` (MSTimer.h, lines 22-23), both `unsigned long`. -/
structure MSTimer where
  startTime : Nat
  duration : Nat
deriving DecidableEq, Repr

/-- Value of an `unsigned long` expression of width `w`: reduction modulo `2 ^ w`. -/
def ulong (w : Nat) (n : Nat) : Nat := n % 2 ^ w

/-- Conversion of a C++ `bool` to `int`: `true` is 1, `false` is 0. -/
def boolToInt (b : Bool) : Int := if b then 1 else 0

/-- Both fields hold values an `unsigned long` of width `w` can hold. -/
def MSTimer.InRange (w : Nat) (self : MSTimer) : Prop :=
  self.startTime < 2 ^ w ∧ self.duration < 2 ^ w

instance (w : Nat) (self : MSTimer) : Decidable (self.InRange w) := by
  unfold MSTimer.InRange; infer_instance

/-- Constructor `MSTimer::MSTimer()` (MSTimer.cpp, lines 11-13), named
`construct` here because a declaration `MSTimer.MSTimer` would shadow the type.
It assigns `duration = 0` and does not assign `startTime`, whose indeterminate
content is the argument `uninit`. -/
def MSTimer.construct (uninit : Nat) : MSTimer :=
  { startTime := uninit, duration := 0 }

/-- Method `int MSTimer::isExpired()` (MSTimer.cpp, lines 15-17):
`return( (startTime + duration) < millis() );`.
The sum is an `unsigned long`, `millis` is the clock read, and the comparison
result is converted to `int`. The body assigns no field, so the object after
the call is the object before it. -/
def MSTimer.isExpired (w : Nat) (self : MSTimer) (millis : Nat) : Int × MSTimer :=
  (boolToInt (decide (ulong w (self.startTime + self.duration) < millis)), self)

/-- Method `void MSTimer::start()` (MSTimer.cpp, lines 19-21):
`startTime = millis();`. -/
def MSTimer.start (self : MSTimer) (millis : Nat) : MSTimer :=
  { self with startTime := millis }

/-- Method `void MSTimer::setTimer(unsigned long _duration)` (MSTimer.cpp,
lines 22-25): `duration = _duration; start();`. -/
def MSTimer.setTimer (self : MSTimer) (_duration : Nat) (millis : Nat) : MSTimer :=
  MSTimer.start { self with duration := _duration } millis

/-- Modelled from the spec: the host clock read `millis()` of `Arduino.h`, which
is not part of the repository. Section 6 describes it as the number of
milliseconds elapsed since a fixed epoch, as an unsigned integer that wraps
around after its maximum representable value: at true elapsed time `T` the
read gives `T` modulo `2 ^ w`. -/
def millis (w : Nat) (T : Nat) : Nat := T % 2 ^ w

/-- The wrap-safe expiry test `(now - startTime) mod 2 ^ w > duration`, which the
source does not contain; it is the comparison `isExpired` is set against. -/
def isExpiredWrapSafe (w : Nat) (self : MSTimer) (now : Nat) : Bool :=
  decide ((self.duration : Int) < ((now : Int) - (self.startTime : Int)) % (2 : Int) ^ w)

/-- A caller polling `isExpired()` `n` times in immediate succession, every call
reading the same clock value: the results in call order and the object after
the last call. -/
def pollRepeatedly (w : Nat) (self : MSTimer) (now : Nat) : Nat → List Int × MSTimer
  | 0 => ([], self)
  | n + 1 =>
    let r := self.isExpired w now
    let rest := pollRepeatedly w r.2 now n
    (r.1 :: rest.1, rest.2)

/-! ## Basic facts about the embedding -/

theorem boolToInt_eq_one (b : Bool) : boolToInt b = 1 ↔ b = true := by
  cases b <;> simp [boolToInt]

theorem boolToInt_eq_zero (b : Bool) : boolToInt b = 0 ↔ b = false := by
  cases b <;> simp [boolToInt]

theorem ulong_of_lt {w n : Nat} (h : n < 2 ^ w) : ulong w n = n :=
  Nat.mod_eq_of_lt h

theorem ulong_le (w n : Nat) : ulong w n ≤ n :=
  Nat.mod_le n (2 ^ w)

theorem ulong_lt (w n : Nat) : ulong w n < 2 ^ w :=
  Nat.mod_lt n (Nat.pos_pow_of_pos w (by decide))

theorem isExpired_fst_eq_one (w : Nat) (self : MSTimer) (now : Nat) :
    (self.isExpired w now).1 = 1 ↔ ulong w (self.startTime + self.duration) < now := by
  simp [MSTimer.isExpired, boolToInt_eq_one]

theorem isExpired_fst_eq_zero (w : Nat) (self : MSTimer) (now : Nat) :
    (self.isExpired w now).1 = 0 ↔ ¬ ulong w (self.startTime + self.duration) < now := by
  simp [MSTimer.isExpired, boolToInt_eq_zero]

theorem start_inRange {w : Nat} {self : MSTimer} {now : Nat}
    (hs : self.InRange w) (hn : now < 2 ^ w) : (self.start now).InRange w :=
  ⟨hn, hs.2⟩

theorem setTimer_inRange {w : Nat} (self : MSTimer) {d now : Nat}
    (hd : d < 2 ^ w) (hn : now < 2 ^ w) : (self.setTimer d now).InRange w :=
  ⟨hn, hd⟩

/-! ## Contract of `isExpired` -/

/-- C1: for every timer state and clock reading `now`, `isExpired()` returns
true (the `int` 1) exactly when `startTime + duration`, computed modulo `2 ^ w`,
is strictly less than `now`, and false (the `int` 0) otherwise. -/
theorem isExpired_iff_deadline_lt (w : Nat) (self : MSTimer) (now : Nat) :
    ((self.isExpired w now).1 = 1 ↔ (self.startTime + self.duration) % 2 ^ w < now) ∧
    ((self.isExpired w now).1 = 0 ↔ ¬ (self.startTime + self.duration) % 2 ^ w < now) :=
  ⟨isExpired_fst_eq_one w self now, isExpired_fst_eq_zero w self now⟩

/-! ## `setTimer` and `start` -/

/-- C4: `setTimer(d)` at clock reading `now` leaves `duration = d` and
`startTime = now`; it equals assigning `duration := d` and then performing
`start()` at the same clock reading, and the result does not depend on the
previous values of the two fields. -/
theorem setTimer_overwrites_both_fields (self : MSTimer) (d now : Nat) :
    (self.setTimer d now).duration = d ∧
    (self.setTimer d now).startTime = now ∧
    self.setTimer d now = MSTimer.start { self with duration := d } now ∧
    ∀ other : MSTimer, other.setTimer d now = self.setTimer d now :=
  ⟨rfl, rfl, rfl, fun _ => rfl⟩

/-- C5: `start()` at clock reading `now` sets `startTime` to `now` and leaves
`duration` unchanged. -/
theorem start_sets_startTime_keeps_duration (self : MSTimer) (now : Nat) :
    (self.start now).startTime = now ∧ (self.start now).duration = self.duration :=
  ⟨rfl, rfl⟩

/-- C6: `isExpired()` is a pure query: after the call the timer's `startTime`
and `duration` are equal to their values before the call. -/
theorem isExpired_keeps_state (w : Nat) (self : MSTimer) (now : Nat) :
    (self.isExpired w now).2.startTime = self.startTime ∧
    (self.isExpired w now).2.duration = self.duration ∧
    (self.isExpired w now).2 = self :=
  ⟨rfl, rfl, rfl⟩

/-! ## The countdown window after `setTimer` -/

/-- C2: after `setTimer(d)` at clock reading `t0` on any timer state,
`isExpired()` returns false at every clock reading `t` with `t0 ≤ t < t0 + d`,
provided `t0 + d` is representable in the unsigned width. -/
theorem setTimer_not_expired_within_window (w : Nat) (self : MSTimer) (d t0 t : Nat)
    (hnowrap : t0 + d < 2 ^ w) (_hlo : t0 ≤ t) (hhi : t < t0 + d) :
    ((self.setTimer d t0).isExpired w t).1 = 0 := by
  rw [isExpired_fst_eq_zero]
  show ¬ ulong w (t0 + d) < t
  rw [ulong_of_lt hnowrap]
  omega

theorem setTimer_not_expired_within_window_witness :
    2000 + 250 < 2 ^ 32 ∧ 2000 ≤ 2249 ∧ 2249 < 2000 + 250 ∧
    ((MSTimer.setTimer ⟨7, 3⟩ 250 2000).isExpired 32 2249).1 = 0 :=
  ⟨by decide, by decide, by decide,
    setTimer_not_expired_within_window 32 ⟨7, 3⟩ 250 2000 2249
      (by decide) (by decide) (by decide)⟩

/-- C3 as stated fails on the code: with `setTimer(250)` at clock reading 2000,
the query at clock reading `2250 = 2000 + 250` satisfies `t ≥ t0 + d` with no
wraparound, and `isExpired()` returns 0 (false), not 1. -/
theorem setTimer_not_expired_at_deadline_reading :
    2000 + 250 < 2 ^ 32 ∧ 2250 < 2 ^ 32 ∧ 2000 + 250 ≤ 2250 ∧
    ((MSTimer.setTimer ⟨0, 0⟩ 250 2000).isExpired 32 2250).1 = 0 ∧
    ((MSTimer.setTimer ⟨0, 0⟩ 250 2000).isExpired 32 2250).1 ≠ 1 := by
  decide

/-- C3 (amended): after `setTimer(d)` at clock reading `t0` on any timer state,
with `t0 + d` and `t` representable in the unsigned width and `t ≥ t0 + d`,
`isExpired()` returns true exactly at the readings `t > t0 + d` and false
exactly at `t = t0 + d`. The expired state is "time since start is strictly
greater than the duration"; with `d = 0` the timer is expired at every reading
strictly after `t0`. -/
theorem setTimer_expired_strictly_after_deadline (w : Nat) (self : MSTimer) (d t0 t : Nat)
    (hnowrap : t0 + d < 2 ^ w) (_ht : t < 2 ^ w) (hge : t0 + d ≤ t) :
    (((self.setTimer d t0).isExpired w t).1 = 1 ↔ t0 + d < t) ∧
    (((self.setTimer d t0).isExpired w t).1 = 0 ↔ t = t0 + d) := by
  have hsum : ulong w ((self.setTimer d t0).startTime + (self.setTimer d t0).duration)
      = t0 + d := ulong_of_lt hnowrap
  rw [isExpired_fst_eq_one, isExpired_fst_eq_zero, hsum]
  constructor
  · exact Iff.rfl
  · omega

theorem setTimer_expired_strictly_after_deadline_witness :
    2000 + 250 < 2 ^ 32 ∧ 2251 < 2 ^ 32 ∧ 2000 + 250 ≤ 2251 ∧
    ((((MSTimer.setTimer ⟨7, 3⟩ 250 2000).isExpired 32 2251).1 = 1 ↔ 2000 + 250 < 2251) ∧
     (((MSTimer.setTimer ⟨7, 3⟩ 250 2000).isExpired 32 2251).1 = 0 ↔ 2251 = 2000 + 250)) :=
  ⟨by decide, by decide, by decide,
    setTimer_expired_strictly_after_deadline 32 ⟨7, 3⟩ 250 2000 2251
      (by decide) (by decide) (by decide)⟩

/-! ## Expiry over time and re-arming -/

/-- C7: expiry persists until re-arming: for the same timer state (no
intervening `start()` or `setTimer()`) and clock readings `t1 ≤ t2` (no
wraparound of the clock between them), if `isExpired()` returns true at `t1`
then it returns true at `t2`. -/
theorem isExpired_persists (w : Nat) (self : MSTimer) (t1 t2 : Nat)
    (hle : t1 ≤ t2) (hexp : (self.isExpired w t1).1 = 1) :
    ((self.isExpired w t1).2.isExpired w t2).1 = 1 := by
  rw [isExpired_fst_eq_one] at hexp
  show (self.isExpired w t2).1 = 1
  rw [isExpired_fst_eq_one]
  omega

theorem isExpired_persists_witness :
    3000 ≤ 4000 ∧ ((⟨2000, 250⟩ : MSTimer).isExpired 32 3000).1 = 1 ∧
    ((((⟨2000, 250⟩ : MSTimer).isExpired 32 3000).2).isExpired 32 4000).1 = 1 :=
  ⟨by decide, by decide, isExpired_persists 32 ⟨2000, 250⟩ 3000 4000 (by decide) (by decide)⟩

/-- C8: re-arming: for every timer state on which `isExpired()` returns true at
clock reading `t1` and every duration `d2`, after `setTimer(d2)` at `t1` the
query `isExpired()` returns false at every clock reading `t` with
`t1 ≤ t < t1 + d2`, provided `t1 + d2` does not wrap around. -/
theorem setTimer_rearms_expired_timer (w : Nat) (self : MSTimer) (t1 d2 t : Nat)
    (_hexp : (self.isExpired w t1).1 = 1)
    (hnowrap : t1 + d2 < 2 ^ w) (_hlo : t1 ≤ t) (hhi : t < t1 + d2) :
    ((((self.isExpired w t1).2).setTimer d2 t1).isExpired w t).1 = 0 := by
  rw [isExpired_fst_eq_zero]
  show ¬ ulong w (t1 + d2) < t
  rw [ulong_of_lt hnowrap]
  omega

theorem setTimer_rearms_expired_timer_witness :
    ((⟨2000, 250⟩ : MSTimer).isExpired 32 3000).1 = 1 ∧
    3000 + 600 < 2 ^ 32 ∧ 3000 ≤ 3599 ∧ 3599 < 3000 + 600 ∧
    (((((⟨2000, 250⟩ : MSTimer).isExpired 32 3000).2).setTimer 600 3000).isExpired 32 3599).1
      = 0 :=
  ⟨by decide, by decide, by decide, by decide,
    setTimer_rearms_expired_timer 32 ⟨2000, 250⟩ 3000 600 3599
      (by decide) (by decide) (by decide) (by decide)⟩

/-- C9: zero duration: after `setTimer(0)` at clock reading `t0` on any timer
state, `isExpired()` returns true at every clock reading `t` strictly later
than `t0`. -/
theorem setTimer_zero_expired_after (w : Nat) (self : MSTimer) (t0 t : Nat)
    (hlt : t0 < t) :
    ((self.setTimer 0 t0).isExpired w t).1 = 1 := by
  rw [isExpired_fst_eq_one]
  show ulong w (t0 + 0) < t
  exact Nat.lt_of_le_of_lt (ulong_le w (t0 + 0)) hlt

theorem setTimer_zero_expired_after_witness :
    2000 < 2001 ∧ ((MSTimer.setTimer ⟨7, 3⟩ 0 2000).isExpired 32 2001).1 = 1 :=
  ⟨by decide, setTimer_zero_expired_after 32 ⟨7, 3⟩ 2000 2001 (by decide)⟩

/-- C10: for every timer state, `start()` at clock reading `t0` followed by
`isExpired()` at clock reading `t1 > t0` returns exactly the truth value of
`(t0 + duration) < t1`, where `duration` is the value held before `start()` and
the sum is the `unsigned long` sum of the source (modulo `2 ^ w`); when
`t0 + duration` is representable this is the comparison of natural numbers. -/
theorem start_then_isExpired (w : Nat) (self : MSTimer) (t0 t1 : Nat)
    (_hlt : t0 < t1) :
    (((self.start t0).isExpired w t1).1 = 1 ↔ (t0 + self.duration) % 2 ^ w < t1) ∧
    (((self.start t0).isExpired w t1).1 = 0 ↔ ¬ (t0 + self.duration) % 2 ^ w < t1) ∧
    (t0 + self.duration < 2 ^ w →
      (((self.start t0).isExpired w t1).1 = 1 ↔ t0 + self.duration < t1) ∧
      (((self.start t0).isExpired w t1).1 = 0 ↔ ¬ t0 + self.duration < t1)) := by
  refine ⟨isExpired_fst_eq_one w (self.start t0) t1,
    isExpired_fst_eq_zero w (self.start t0) t1, fun hrep => ?_⟩
  have hsum : ulong w ((self.start t0).startTime + (self.start t0).duration)
      = t0 + self.duration := ulong_of_lt hrep
  rw [isExpired_fst_eq_one, isExpired_fst_eq_zero, hsum]
  exact ⟨Iff.rfl, Iff.rfl⟩

theorem start_then_isExpired_witness :
    2000 < 2300 ∧
    ((((⟨7, 250⟩ : MSTimer).start 2000).isExpired 32 2300).1 = 1 ↔
      (2000 + (⟨7, 250⟩ : MSTimer).duration) % 2 ^ 32 < 2300) ∧
    ((((⟨7, 250⟩ : MSTimer).start 2000).isExpired 32 2300).1 = 0 ↔
      ¬ (2000 + (⟨7, 250⟩ : MSTimer).duration) % 2 ^ 32 < 2300) ∧
    (2000 + (⟨7, 250⟩ : MSTimer).duration < 2 ^ 32 →
      ((((⟨7, 250⟩ : MSTimer).start 2000).isExpired 32 2300).1 = 1 ↔
        2000 + (⟨7, 250⟩ : MSTimer).duration < 2300) ∧
      ((((⟨7, 250⟩ : MSTimer).start 2000).isExpired 32 2300).1 = 0 ↔
        ¬ 2000 + (⟨7, 250⟩ : MSTimer).duration < 2300)) :=
  ⟨by decide, start_then_isExpired 32 ⟨7, 250⟩ 2000 2300 (by decide)⟩

/-! ## Scenario, repeated polling and the unarmed timer -/

/-- C11: concrete scenario: from any timer state, `setTimer(500)` when the clock
reads 1000, then `isExpired()` when the clock reads 1400 returns false, and
`isExpired()` when the clock reads 1600 returns true. It holds for every width
of `unsigned long` that can hold these readings (at least 11 bits). -/
theorem scenario_1000_500 (w : Nat) (hw : 11 ≤ w) (self : MSTimer) :
    ((self.setTimer 500 1000).isExpired w 1400).1 = 0 ∧
    ((((self.setTimer 500 1000).isExpired w 1400).2).isExpired w 1600).1 = 1 := by
  have hpow : 2 ^ 11 ≤ 2 ^ w := Nat.pow_le_pow_right (by decide) hw
  have hrep : 1000 + 500 < 2 ^ w := Nat.lt_of_lt_of_le (by decide) hpow
  have hsum : ulong w ((self.setTimer 500 1000).startTime + (self.setTimer 500 1000).duration)
      = 1000 + 500 := ulong_of_lt hrep
  constructor
  · rw [isExpired_fst_eq_zero, hsum]
    decide
  · show ((self.setTimer 500 1000).isExpired w 1600).1 = 1
    rw [isExpired_fst_eq_one, hsum]
    decide

theorem scenario_1000_500_witness :
    11 ≤ 32 ∧
    ((MSTimer.setTimer ⟨7, 3⟩ 500 1000).isExpired 32 1400).1 = 0 ∧
    ((((MSTimer.setTimer ⟨7, 3⟩ 500 1000).isExpired 32 1400).2).isExpired 32 1600).1 = 1 :=
  ⟨by decide, scenario_1000_500 32 (by decide) ⟨7, 3⟩⟩

/-- C12: idempotence: for every timer state and clock reading, `n` calls of
`isExpired()` in immediate succession at the same clock reading all return the
result of the first call, and the timer is unchanged after them. -/
theorem isExpired_repeated_same_result (w : Nat) (self : MSTimer) (now n : Nat) :
    (pollRepeatedly w self now n).1 = List.replicate n (self.isExpired w now).1 ∧
    (pollRepeatedly w self now n).2 = self := by
  induction n with
  | zero => exact ⟨rfl, rfl⟩
  | succ k ih =>
    have hstep : pollRepeatedly w self now (k + 1)
        = ((self.isExpired w now).1 :: (pollRepeatedly w self now k).1,
            (pollRepeatedly w self now k).2) := rfl
    rw [hstep, ih.1, ih.2]
    exact ⟨rfl, rfl⟩

/-- C13: a freshly constructed timer has `duration = 0` whatever value
`uninit` its unassigned `startTime` holds; `isExpired()` polled on it returns
true exactly when that value is strictly less than the clock reading, so with
`startTime = 0` it returns true at every non-zero clock reading. -/
theorem construct_then_isExpired (w : Nat) (uninit now : Nat) (hu : uninit < 2 ^ w) :
    (MSTimer.construct uninit).duration = 0 ∧
    (MSTimer.construct uninit).startTime = uninit ∧
    (((MSTimer.construct uninit).isExpired w now).1 = 1 ↔ uninit < now) ∧
    (((MSTimer.construct uninit).isExpired w now).1 = 0 ↔ ¬ uninit < now) ∧
    (now ≠ 0 → ((MSTimer.construct 0).isExpired w now).1 = 1) := by
  have hsum : ulong w ((MSTimer.construct uninit).startTime
      + (MSTimer.construct uninit).duration) = uninit := ulong_of_lt hu
  refine ⟨rfl, rfl, ?_, ?_, ?_⟩
  · rw [isExpired_fst_eq_one, hsum]
  · rw [isExpired_fst_eq_zero, hsum]
  · intro hne
    rw [isExpired_fst_eq_one]
    show ulong w (0 + 0) < now
    exact Nat.lt_of_le_of_lt (ulong_le w (0 + 0)) (Nat.pos_of_ne_zero hne)

theorem construct_then_isExpired_witness :
    (41 : Nat) < 2 ^ 32 ∧
    ((MSTimer.construct 41).duration = 0 ∧
     (MSTimer.construct 41).startTime = 41 ∧
     (((MSTimer.construct 41).isExpired 32 42).1 = 1 ↔ 41 < 42) ∧
     (((MSTimer.construct 41).isExpired 32 42).1 = 0 ↔ ¬ 41 < 42) ∧
     (42 ≠ 0 → ((MSTimer.construct 0).isExpired 32 42).1 = 1)) :=
  ⟨by decide, construct_then_isExpired 32 41 42 (by decide)⟩

/-! ## Boundary, overflow and wraparound -/

/-- C14: exact expiry boundary: for every timer state and clock reading `now`
with `now ≥ startTime` and `startTime + duration` representable, `isExpired()`
returns true if and only if the elapsed time `now - startTime` is strictly
greater than `duration`; at `now = startTime + duration` it returns false. -/
theorem isExpired_iff_elapsed_gt (w : Nat) (self : MSTimer) (now : Nat)
    (hge : self.startTime ≤ now) (hrep : self.startTime + self.duration < 2 ^ w) :
    ((self.isExpired w now).1 = 1 ↔ self.duration < now - self.startTime) ∧
    ((self.isExpired w now).1 = 0 ↔ ¬ self.duration < now - self.startTime) ∧
    (self.isExpired w (self.startTime + self.duration)).1 = 0 := by
  refine ⟨?_, ?_, ?_⟩
  · rw [isExpired_fst_eq_one, ulong_of_lt hrep]
    omega
  · rw [isExpired_fst_eq_zero, ulong_of_lt hrep]
    omega
  · rw [isExpired_fst_eq_zero, ulong_of_lt hrep]
    omega

theorem isExpired_iff_elapsed_gt_witness :
    (⟨2000, 250⟩ : MSTimer).startTime ≤ 2251 ∧
    (⟨2000, 250⟩ : MSTimer).startTime + (⟨2000, 250⟩ : MSTimer).duration < 2 ^ 32 ∧
    ((((⟨2000, 250⟩ : MSTimer).isExpired 32 2251).1 = 1 ↔
        (⟨2000, 250⟩ : MSTimer).duration < 2251 - (⟨2000, 250⟩ : MSTimer).startTime) ∧
     (((⟨2000, 250⟩ : MSTimer).isExpired 32 2251).1 = 0 ↔
        ¬ (⟨2000, 250⟩ : MSTimer).duration < 2251 - (⟨2000, 250⟩ : MSTimer).startTime) ∧
     ((⟨2000, 250⟩ : MSTimer).isExpired 32
        ((⟨2000, 250⟩ : MSTimer).startTime + (⟨2000, 250⟩ : MSTimer).duration)).1 = 0) :=
  ⟨by decide, by decide, isExpired_iff_elapsed_gt 32 ⟨2000, 250⟩ 2251 (by decide) (by decide)⟩

/-- C15: deadline overflow causes premature expiry: for every width `w ≥ 1`
there are an in-range clock reading `t0` and duration `d > 0` with
`t0 + d ≥ 2 ^ w` such that after `setTimer(d)` at `t0` the query `isExpired()` at
the same reading `t0` returns true (the proof takes `t0 = 2 ^ w - 1`, `d = 1`);
and this happens for all in-range `t0` and `d` with `0 < d` and
`t0 + d ≥ 2 ^ w`. -/
theorem deadline_overflow_expired_at_once (w : Nat) (hw : 1 ≤ w) :
    (∃ t0 d, t0 < 2 ^ w ∧ d < 2 ^ w ∧ 0 < d ∧ 2 ^ w ≤ t0 + d ∧
      ∀ self : MSTimer, ((self.setTimer d t0).isExpired w t0).1 = 1) ∧
    (∀ t0 d, t0 < 2 ^ w → d < 2 ^ w → 0 < d → 2 ^ w ≤ t0 + d →
      ∀ self : MSTimer, ((self.setTimer d t0).isExpired w t0).1 = 1) := by
  have hgen : ∀ t0 d, t0 < 2 ^ w → d < 2 ^ w → 0 < d → 2 ^ w ≤ t0 + d →
      ∀ self : MSTimer, ((self.setTimer d t0).isExpired w t0).1 = 1 := by
    intro t0 d ht0 hd _ hov self
    rw [isExpired_fst_eq_one]
    show (t0 + d) % 2 ^ w < t0
    rw [Nat.mod_eq_sub_mod hov, Nat.mod_eq_of_lt (by omega)]
    omega
  have hpow : 2 ^ 1 ≤ 2 ^ w := Nat.pow_le_pow_right (by decide) hw
  have htwo : 2 ≤ 2 ^ w := hpow
  refine ⟨⟨2 ^ w - 1, 1, by omega, by omega, by omega, by omega, ?_⟩, hgen⟩
  exact hgen (2 ^ w - 1) 1 (by omega) (by omega) (by omega) (by omega)

theorem deadline_overflow_expired_at_once_witness :
    1 ≤ 32 ∧
    ((∃ t0 d, t0 < 2 ^ 32 ∧ d < 2 ^ 32 ∧ 0 < d ∧ 2 ^ 32 ≤ t0 + d ∧
      ∀ self : MSTimer, ((self.setTimer d t0).isExpired 32 t0).1 = 1) ∧
     (∀ t0 d, t0 < 2 ^ 32 → d < 2 ^ 32 → 0 < d → 2 ^ 32 ≤ t0 + d →
      ∀ self : MSTimer, ((self.setTimer d t0).isExpired 32 t0).1 = 1)) ∧
    ((MSTimer.setTimer ⟨7, 3⟩ 1 (2 ^ 32 - 1)).isExpired 32 (2 ^ 32 - 1)).1 = 1 :=
  ⟨by decide, deadline_overflow_expired_at_once 32 (by decide),
    (deadline_overflow_expired_at_once 32 (by decide)).2 (2 ^ 32 - 1) 1
      (by decide) (by decide) (by decide) (by decide) ⟨7, 3⟩⟩

/-- C16: clock wraparound can hide expiry: with the clock reading equal to the
true elapsed time modulo `2 ^ w` (`w ≥ 2`), there are a true time `T0`, a
duration `d > 0` with `(T0 mod 2 ^ w) + d < 2 ^ w` and a later true time `T1`
with `T1 - T0 > d` such that after `setTimer(d)` at `T0` the query
`isExpired()` at `T1` returns false, while the wrap-safe test
`(now - startTime) mod 2 ^ w > duration` is true there. The proof takes
`T0 = 2 ^ w - 2`, `d = 1` and `T1 = 2 ^ w`, where the clock reads 0 again. -/
theorem clock_wraparound_hides_expiry (w : Nat) (hw : 2 ≤ w) :
    ∃ T0 d T1, millis w T0 + d < 2 ^ w ∧ 0 < d ∧ T0 ≤ T1 ∧ d < T1 - T0 ∧
      ∀ self : MSTimer,
        ((self.setTimer d (millis w T0)).isExpired w (millis w T1)).1 = 0 ∧
        isExpiredWrapSafe w (self.setTimer d (millis w T0)) (millis w T1) = true := by
  have hpow : 2 ^ 2 ≤ 2 ^ w := Nat.pow_le_pow_right (by decide) hw
  have hfour : 4 ≤ 2 ^ w := hpow
  have hT0 : millis w (2 ^ w - 2) = 2 ^ w - 2 := Nat.mod_eq_of_lt (by omega)
  have hT1 : millis w (2 ^ w) = 0 := Nat.mod_self (2 ^ w)
  refine ⟨2 ^ w - 2, 1, 2 ^ w, ?_, by decide, by omega, by omega, ?_⟩
  · rw [hT0]; omega
  · intro self
    rw [hT0, hT1]
    constructor
    · rw [isExpired_fst_eq_zero]
      exact Nat.not_lt_zero _
    · have hcast : ((2 ^ w - 2 : Nat) : Int) = (2 : Int) ^ w - 2 := by
        rw [Nat.cast_sub (by omega)]; push_cast; rfl
      have hmod : (((0 : Nat) : Int) - ((2 ^ w - 2 : Nat) : Int)) % (2 : Int) ^ w = 2 := by
        have hfourZ : (4 : Int) ≤ (2 : Int) ^ w := by exact_mod_cast hfour
        have hrew : ((0 : Nat) : Int) - ((2 ^ w - 2 : Nat) : Int)
            = 2 + (-1) * (2 : Int) ^ w := by rw [hcast]; push_cast; ring
        rw [hrew, Int.add_mul_emod_self]
        exact Int.emod_eq_of_lt (by decide) (by omega)
      show decide (((1 : Nat) : Int)
        < (((0 : Nat) : Int) - ((2 ^ w - 2 : Nat) : Int)) % (2 : Int) ^ w) = true
      rw [hmod]
      decide

theorem clock_wraparound_hides_expiry_witness :
    2 ≤ 32 ∧
    ∃ T0 d T1, millis 32 T0 + d < 2 ^ 32 ∧ 0 < d ∧ T0 ≤ T1 ∧ d < T1 - T0 ∧
      ∀ self : MSTimer,
        ((self.setTimer d (millis 32 T0)).isExpired 32 (millis 32 T1)).1 = 0 ∧
        isExpiredWrapSafe 32 (self.setTimer d (millis 32 T0)) (millis 32 T1) = true :=
  ⟨by decide, clock_wraparound_hides_expiry 32 (by decide)⟩
